import Mathlib

/-!
Verification development for the JUCE project generator
(`generate-new-juce-project.py`), a single-file interactive scaffolding
tool.  The definitions below are a shallow embedding of the script's
pure helper functions and of its interactive prompt pipeline; strings
are Lean `String`s (lists of unicode scalar `Char`s, matching Python's
`str`), the interactive console is modelled as a list of input lines,
and the filesystem as an existence predicate plus an emitted trace of
filesystem operations.
-/

namespace JuceGen

/-! ### ASCII character classes

The script's regular expressions (`[^a-zA-Z0-9]`, `[^a-zA-Z0-9_-]`,
`^[a-zA-Z][a-zA-Z0-9_-]*$`) mention only explicit ASCII ranges, so the
corresponding character tests are embedded directly. -/

def isAsciiLetter (c : Char) : Bool :=
  (97 ≤ c.toNat && c.toNat ≤ 122) || (65 ≤ c.toNat && c.toNat ≤ 90)

def isAsciiDigit (c : Char) : Bool :=
  48 ≤ c.toNat && c.toNat ≤ 57

/-- Characters kept by `re.sub(r'[^a-zA-Z0-9]', '', ...)`. -/
def isAlnumAsciiChar (c : Char) : Bool :=
  isAsciiLetter c || isAsciiDigit c

/-- Characters kept by `re.sub(r'[^a-zA-Z0-9_-]', '', ...)`. -/
def isProjectIdChar (c : Char) : Bool :=
  isAlnumAsciiChar c || c == '_' || c == '-'

/-- Characters matched by `[a-zA-Z0-9_-]` (the tail class of the
project-name regex); identical to `isProjectIdChar`. -/
def isNameTailChar (c : Char) : Bool :=
  isProjectIdChar c

/-! ### Python string primitives used by the script -/

/-- ASCII whitespace, as stripped by Python's `str.strip()` (Python also
strips a few unicode space characters; no code path in the script ever
depends on those, and every claim below is insensitive to them). -/
def isSpaceChar (c : Char) : Bool :=
  c == ' ' || c == '\t' || c == '\n' || c == '\r' ||
    c == (Char.ofNat 11) || c == (Char.ofNat 12)

/-- Model of Python `str.strip()`: drop whitespace from both ends. -/
def pyStrip (s : String) : String :=
  String.mk (((s.data.dropWhile isSpaceChar).reverse.dropWhile isSpaceChar).reverse)

/-- Model of Python `str.lower()` on the ASCII letters the script
compares against (`'y'`, `'yes'`, `'n'`, `'no'`). -/
def pyLower (s : String) : String :=
  String.mk (s.data.map Char.toLower)

/-! ### Problematic-character detection (`isPathSeparator`,
`isNonAsciiChar`, `findProblematicCharsInPath`, `hasProblematicChars`,
`formatProblematicCharsString`) -/

/-- `char in ['/', '\\', ':', ' ']`. -/
def isPathSeparator (c : Char) : Bool :=
  c == '/' || c == '\\' || c == ':' || c == ' '

/-- `ord(char) > 127`. -/
def isNonAsciiChar (c : Char) : Bool :=
  127 < c.toNat

/-- The loop in `findProblematicCharsInPath`: skip separators, collect
characters with code point above 127, in order, duplicates kept. -/
def findProblematicCharsInPath (path : String) : List Char :=
  path.data.filter (fun c => !isPathSeparator c && isNonAsciiChar c)

/-- `hasProblematicChars`: the flag `len(problematicChars) > 0` paired
with the collected characters. -/
def hasProblematicChars (path : String) : Bool × List Char :=
  let problematicChars := findProblematicCharsInPath path
  (decide (0 < problematicChars.length), problematicChars)

/-- A single ASCII apostrophe, used by the error formatter. -/
def quoteChar : Char := Char.ofNat 39

/-- `formatProblematicCharsString`: deduplicate (`list(set(...))` in
Python — its iteration order is arbitrary; we fix the order chosen by
`List.dedup`, every property claimed of the formatter is independent of
that order), quote and comma-join the first ten, and append a count of
the remainder when more than ten are distinct. -/
def formatProblematicCharsString (problematicChars : List Char) : String :=
  let uniqueChars := problematicChars.dedup
  let charsStr := String.intercalate ", "
    ((uniqueChars.take 10).map
      (fun c => quoteChar.toString ++ c.toString ++ quoteChar.toString))
  if 10 < uniqueChars.length then
    charsStr ++ " ... (and " ++ toString (uniqueChars.length - 10) ++ " more)"
  else
    charsStr

/-! ### Manufacturer / plugin code validators

Python's `str.isalpha()` / `str.isalnum()` are unicode-aware; we embed
them parametrically in the per-character class and use only their
documented shape: true iff the string is non-empty and every character
is in the class. -/

/-- Shape of Python `str.isalpha()` / `str.isalnum()` for a given
per-character class `cls`: non-empty and all characters in the class. -/
def pyStrAll (cls : Char → Bool) (s : String) : Bool :=
  !s.data.isEmpty && s.data.all cls

/-- `isValidManufacturerCode`: `len(code) == 4 and code.isalpha()`,
with `alphaC` standing for Python's per-character alphabetic test. -/
def isValidManufacturerCode (alphaC : Char → Bool) (code : String) : Bool :=
  code.length == 4 && pyStrAll alphaC code

/-- `isValidPluginCode`: `len(code) == 4 and code.isalnum()`, with
`alnumC` standing for Python's per-character alphanumeric test. -/
def isValidPluginCode (alnumC : Char → Bool) (code : String) : Bool :=
  code.length == 4 && pyStrAll alnumC code

/-! ### Project-name validation

`isValidProjectName` is `bool(re.match(r'^[a-zA-Z][a-zA-Z0-9_-]*$', name))`.
Python's `$` anchor matches at the end of the string *or just before a
newline at the end of the string*, so the regex also accepts a valid
name followed by one trailing `'\n'`.  The embedding reproduces that. -/

/-- The core pattern `[a-zA-Z][a-zA-Z0-9_-]*` matched against the whole
character list. -/
def matchesNameCore (l : List Char) : Bool :=
  match l with
  | [] => false
  | c :: rest => isAsciiLetter c && rest.all isNameTailChar

/-- `isValidProjectName`, including the `$`-before-final-newline
behaviour of `re.match`. -/
def isValidProjectName (name : String) : Bool :=
  matchesNameCore name.data ||
    (match name.data.getLast? with
     | some c => c == '\n' && matchesNameCore name.data.dropLast
     | none => false)

/-! ### Bundle-identifier derivation (`generateBundleId`) -/

/-- `re.sub(r'[^a-zA-Z0-9]', '', s)`. -/
def stripNonAlnum (s : String) : String :=
  String.mk (s.data.filter isAlnumAsciiChar)

/-- `re.sub(r'[^a-zA-Z0-9_-]', '', s)`. -/
def stripNonProjectId (s : String) : String :=
  String.mk (s.data.filter isProjectIdChar)

/-- `generateBundleId`: sanitize the manufacturer name to ASCII
alphanumerics; *if the result is non-empty* (Python truthiness of the
string) and its first character is not alphabetic, put `"Company"` in
front (after sanitization the first character is ASCII alphanumeric,
so Python's `isalpha()` coincides with `isAsciiLetter`); sanitize the
project name to `[a-zA-Z0-9_-]`; join as `com.<m>.<p>`. -/
def generateBundleId (manufacturerName projectName : String) : String :=
  let manufacturerId := stripNonAlnum manufacturerName
  let manufacturerId :=
    match manufacturerId.data with
    | [] => manufacturerId
    | c :: _ => if !isAsciiLetter c then "Company" ++ manufacturerId else manufacturerId
  let projectId := stripNonProjectId projectName
  "com." ++ manufacturerId ++ "." ++ projectId

/-- The manufacturer segment as the (amended) specification words it:
the sanitized manufacturer name, with the fallback word `"Company"`
prefixed exactly when the sanitized segment is non-empty and does not
start with a letter. -/
def manufacturerSegmentSpec (m : String) : String :=
  let stripped := stripNonAlnum m
  if (stripped.data.head?.map (fun c => !isAsciiLetter c)).getD false then
    "Company" ++ stripped
  else
    stripped

/-! ### Category derivation (`updateAuAndVst3Categories`) -/

/-- How `configurePluginSettings` stores a yes/no answer. -/
def boolToFlag (b : Bool) : String :=
  if b then "TRUE" else "FALSE"

/-- `updateAuAndVst3Categories`, returning the pair
`(auMainType, vst3Categories)` it assigns.  It reads only the
`isSynth` and `isMidiEffect` flags. -/
def updateAuAndVst3Categories (isSynthFlag isMidiEffectFlag : String) : String × String :=
  if isSynthFlag == "TRUE" then
    ("kAudioUnitType_MusicDevice", "Instrument|Synth")
  else if isMidiEffectFlag == "TRUE" then
    ("kAudioUnitType_MIDIProcessor", "Fx|MIDI")
  else
    ("kAudioUnitType_Effect", "Fx")

/-! ### Yes/no prompt (`getValidBooleanInput`)

The console is a list of pending input lines.  Each loop iteration of
the script consumes exactly one line, so the loop is structural
recursion on the list; an exhausted list is modelled as `none`
(the real script would block forever waiting for input).  The
`default` argument is kept because the source takes it, but — exactly
as in the source — it only influences the prompt label `[Y/n]`/`[y/N]`,
never the accepted answers. -/

def getValidBooleanInput (default : Bool) : List String → Option (Bool × List String)
  | [] => none
  | i :: rest =>
    if pyStrip i == "" then
      getValidBooleanInput default rest
    else if pyLower (pyStrip i) == "y" || pyLower (pyStrip i) == "yes" then
      some (true, rest)
    else if pyLower (pyStrip i) == "n" || pyLower (pyStrip i) == "no" then
      some (false, rest)
    else
      getValidBooleanInput default rest

/-! ### Format selection (`selectPluginFormats`)

Three yes/no prompts (AU, VST3, Standalone — Standalone's prompt shows
default yes); an empty selection restarts the whole step by recursion.
The restart makes the recursion non-structural, so it is driven by a
fuel counter: `none` means the interaction never terminated within the
given fuel. -/

/-- One pass of the `for fmt in formats` loop: the three yes/no
prompts in order, yielding the selected sub-list of
`["AU", "VST3", "Standalone"]` and the remaining input. -/
def formatPass (inputs : List String) : Option (List String × List String) :=
  match getValidBooleanInput false inputs with
  | none => none
  | some (bAU, r1) =>
    match getValidBooleanInput false r1 with
    | none => none
    | some (bVST3, r2) =>
      match getValidBooleanInput true r2 with
      | none => none
      | some (bStandalone, r3) =>
        some ((if bAU then ["AU"] else []) ++
              (if bVST3 then ["VST3"] else []) ++
              (if bStandalone then ["Standalone"] else []), r3)

def selectPluginFormats : Nat → List String → Option (String × List String)
  | 0, _ => none
  | fuel + 1, inputs =>
    match formatPass inputs with
    | none => none
    | some (selected, r3) =>
      if selected.isEmpty then
        selectPluginFormats fuel r3
      else
        some (String.intercalate " " selected, r3)

/-! ### The interactive pipeline -/

/-- Observable events of one run: overwrite confirmations given by the
user during name entry, and the filesystem mutations of the generation
stage. -/
inductive Ev where
  | confirmOverwrite (path : String)
  | rmtree (path : String)
  | mkdir (path : String)
  | write (path : String)
  | copy (path : String)
  deriving DecidableEq

/-- `true` exactly on the user-confirmation event. -/
def Ev.isConfirm : Ev → Bool
  | .confirmOverwrite _ => true
  | _ => false

/-- Ambient run environment: the directory-existence predicate (the
filesystem is only mutated after all prompting, so a single snapshot
suffices), the loaded defaults, and the per-character classes standing
for Python's unicode `isalpha`/`isalnum`. -/
structure Env where
  fs : String → Bool
  defaultDestination : String
  defaultManufacturer : String
  defaultManufacturerCode : String
  defaultPluginCode : String
  configureScriptExists : Bool
  alphaC : Char → Bool
  alnumC : Char → Bool

/-- The project descriptor as filled by `collectProjectInfo`. -/
structure GenState where
  projectName : String
  projectDisplayName : String
  projectVersion : String
  manufacturerName : String
  manufacturerCode : String
  pluginCode : String
  bundleId : String
  isSynth : String
  needsMidiInput : String
  needsMidiOutput : String
  isMidiEffect : String
  auMainType : String
  vst3Categories : String
  pluginFormats : String
  destinationDir : String
  projectDir : String
  deriving DecidableEq

/-- `Path(dest) / name`, rendered as a string. -/
def joinPath (dest name : String) : String :=
  dest ++ "/" ++ name

/-- Python's `input(...).strip() or default`: the stripped input line,
or the shown default when the stripped line is empty. -/
def promptedValue (deflt : String) (i : String) : String :=
  if pyStrip i == "" then deflt else pyStrip i

/-- `kDefaultPluginName`. -/
def kDefaultPluginName : String := "NewPlugin"

/-- `kDefaultVersion`. -/
def kDefaultVersion : String := "1.0.0"

/-- `inputProjectName`: loop reading a technical name (empty input
takes the default), validating it, and — when
`kDefaultDestination / techName` already exists — asking for overwrite
confirmation via `getValidBooleanInput`; declining loops back to name
entry, accepting records a `confirmOverwrite` event for that
directory.  Note the existence check uses the *default* destination;
the destination prompted for later is not consulted here.  Returns
`(techName, displayName, events, remaining inputs)`. -/
def inputProjectName (env : Env) :
    Nat → List String → Option (String × String × List Ev × List String)
  | 0, _ => none
  | _ + 1, [] => none
  | fuel + 1, i :: rest =>
    if !isValidProjectName (promptedValue kDefaultPluginName i) then
      inputProjectName env fuel rest
    else if env.fs (joinPath env.defaultDestination (promptedValue kDefaultPluginName i)) then
      match getValidBooleanInput false rest with
      | none => none
      | some (false, r') => inputProjectName env fuel r'
      | some (true, r') =>
        match r' with
        | [] => none
        | d :: r'' =>
          some (promptedValue kDefaultPluginName i,
                promptedValue (promptedValue kDefaultPluginName i) d,
                [Ev.confirmOverwrite
                  (joinPath env.defaultDestination (promptedValue kDefaultPluginName i))],
                r'')
    else
      match rest with
      | [] => none
      | d :: r'' =>
        some (promptedValue kDefaultPluginName i,
              promptedValue (promptedValue kDefaultPluginName i) d, [], r'')

/-- `inputManufacturerCode`: empty input short-circuits to the default
without validation; otherwise re-prompt until 4 alphabetic chars. -/
def inputManufacturerCode (env : Env) : List String → Option (String × List String)
  | [] => none
  | i :: rest =>
    let code := pyStrip i
    if code == "" then
      some (env.defaultManufacturerCode, rest)
    else if code.length == 4 && pyStrAll env.alphaC code then
      some (code, rest)
    else
      inputManufacturerCode env rest

/-- `inputPluginCode`: empty input short-circuits to the default;
otherwise re-prompt until 4 alphanumeric chars. -/
def inputPluginCode (env : Env) : List String → Option (String × List String)
  | [] => none
  | i :: rest =>
    let code := pyStrip i
    if code == "" then
      some (env.defaultPluginCode, rest)
    else if code.length == 4 && pyStrAll env.alnumC code then
      some (code, rest)
    else
      inputPluginCode env rest

/-- `selectDestinationFolder`: free text with default; a destination
containing problematic characters prints a non-fatal message and
re-prompts. -/
def selectDestinationFolder (env : Env) : List String → Option (String × List String)
  | [] => none
  | i :: rest =>
    if (hasProblematicChars (promptedValue env.defaultDestination i)).1 then
      selectDestinationFolder env rest
    else
      some (promptedValue env.defaultDestination i, rest)

/-- `configurePluginSettings`: four consecutive yes/no prompts, stored
as `"TRUE"`/`"FALSE"` strings, followed by the category derivation.
Returns `(isSynth, needsMidiInput, needsMidiOutput, isMidiEffect,
auMainType, vst3Categories, rest)`. -/
def configurePluginSettings (inputs : List String) :
    Option ((String × String × String × String) × (String × String) × List String) :=
  match getValidBooleanInput false inputs with
  | none => none
  | some (bSynth, r1) =>
    match getValidBooleanInput false r1 with
    | none => none
    | some (bMidiIn, r2) =>
      match getValidBooleanInput false r2 with
      | none => none
      | some (bMidiOut, r3) =>
        match getValidBooleanInput false r3 with
        | none => none
        | some (bMidiEffect, r4) =>
          let isSynth := boolToFlag bSynth
          let isMidiEffect := boolToFlag bMidiEffect
          some ((isSynth, boolToFlag bMidiIn, boolToFlag bMidiOut, isMidiEffect),
                updateAuAndVst3Categories isSynth isMidiEffect, r4)

/-- `collectProjectInfo`: the whole prompt sequence, in source order.
Returns the populated descriptor, the overwrite confirmations given on
the way, and the remaining input lines. -/
def collectProjectInfo (env : Env) (fuel : Nat) (inputs : List String) :
    Option (GenState × List Ev × List String) :=
  match inputProjectName env fuel inputs with
  | none => none
  | some (techName, displayName, evs, r1) =>
    match r1 with
    | [] => none
    | vIn :: r2 =>
      match r2 with
      | [] => none
      | mIn :: r3 =>
        match inputManufacturerCode env r3 with
        | none => none
        | some (manufacturerCode, r4) =>
          match inputPluginCode env r4 with
          | none => none
          | some (pluginCode, r5) =>
            match configurePluginSettings r5 with
            | none => none
            | some ((isSynth, midiIn, midiOut, isMidiEffect), (auMainType, vst3Categories), r6) =>
              match selectPluginFormats fuel r6 with
              | none => none
              | some (pluginFormats, r7) =>
                match selectDestinationFolder env r7 with
                | none => none
                | some (destinationDir, r8) =>
                  some ({ projectName := techName
                          projectDisplayName := displayName
                          projectVersion := promptedValue kDefaultVersion vIn
                          manufacturerName := promptedValue env.defaultManufacturer mIn
                          manufacturerCode := manufacturerCode
                          pluginCode := pluginCode
                          bundleId := generateBundleId
                            (promptedValue env.defaultManufacturer mIn) techName
                          isSynth := isSynth
                          needsMidiInput := midiIn
                          needsMidiOutput := midiOut
                          isMidiEffect := isMidiEffect
                          auMainType := auMainType
                          vst3Categories := vst3Categories
                          pluginFormats := pluginFormats
                          destinationDir := destinationDir
                          projectDir := joinPath destinationDir techName },
                        evs, r8)

/-- The answer the user gives to the final `Create project?`
confirmation of `showSummary` (shown default yes — which, per
`getValidBooleanInput`, affects only the label). -/
def summaryAnswer (env : Env) (fuel : Nat) (inputs : List String) : Option Bool :=
  match collectProjectInfo env fuel inputs with
  | none => none
  | some (_, _, rest) => (getValidBooleanInput true rest).map (·.1)

/-- The filesystem mutations of the generation stage
(`createProjectStructure` followed by the fixed emission sequence):
remove any pre-existing tree at the final project path, make the two
subdirectories, write the twelve rendered/copied text files, copy the
helper script when present, write the README. -/
def generationEvents (env : Env) (st : GenState) : List Ev :=
  (if env.fs st.projectDir then [Ev.rmtree st.projectDir] else []) ++
  [Ev.mkdir (joinPath st.projectDir "Source"),
   Ev.mkdir (joinPath st.projectDir ".vscode"),
   Ev.write (joinPath st.projectDir "CMakeLists.txt"),
   Ev.write (joinPath st.projectDir "Source/PluginProcessor.h"),
   Ev.write (joinPath st.projectDir "Source/PluginProcessor.cpp"),
   Ev.write (joinPath st.projectDir "Source/PluginEditor.h"),
   Ev.write (joinPath st.projectDir "Source/PluginEditor.cpp"),
   Ev.write (joinPath st.projectDir "Source/PluginFactory.cpp"),
   Ev.write (joinPath st.projectDir ".vscode/settings.json"),
   Ev.write (joinPath st.projectDir ".vscode/tasks.json"),
   Ev.write (joinPath st.projectDir ".vscode/launch.json"),
   Ev.write (joinPath st.projectDir ".cursorrules"),
   Ev.write (joinPath st.projectDir ".gitignore"),
   Ev.write (joinPath st.projectDir "CMakeUserPresets.json")] ++
  (if env.configureScriptExists then [Ev.copy (joinPath st.projectDir "configure-platform.py")] else []) ++
  [Ev.write (joinPath st.projectDir "README.md")]

/-- `generate`: collect the descriptor, show the summary; declining
prints a cancellation message and `sys.exit(0)` (exit status 0, no
filesystem events); accepting runs the generation stage and the
process then terminates normally (also status 0).  Result: exit status
paired with the full event trace. -/
def generate (env : Env) (fuel : Nat) (inputs : List String) : Option (Nat × List Ev) :=
  match collectProjectInfo env fuel inputs with
  | none => none
  | some (st, evs, rest) =>
    match getValidBooleanInput true rest with
    | none => none
    | some (ok, _) =>
      if ok then
        some (0, evs ++ generationEvents env st)
      else
        some (0, evs)

/-! ### Template-output functions that bypass field substitution
(`generateCursorRules`, `generateGitIgnore`, `generateCMakeUserPresets`)

Modelled as functions from the loaded template text to the text
written; none of them calls `renderTemplate`, so none receives the
descriptor. -/

/-- Model of Python `str.replace(old, new)` for the two-character
patterns the script uses: scan left to right, replacing
non-overlapping occurrences of `[a, b]` by `[c]`. -/
def pyReplace2 (a b c : Char) : List Char → List Char
  | [] => []
  | [x] => [x]
  | x :: y :: rest =>
    if x == a && y == b then c :: pyReplace2 a b c rest
    else x :: pyReplace2 a b c (y :: rest)

/-- An opening brace (written via its code point to keep it out of
string literals). -/
def braceL : Char := Char.ofNat 123

/-- A closing brace. -/
def braceR : Char := Char.ofNat 125

/-- `.cursorrules` output: the template text verbatim. -/
def generateCursorRules (template : String) : String :=
  template

/-- `.gitignore` output: the template text verbatim. -/
def generateGitIgnore (template : String) : String :=
  template

/-- `CMakeUserPresets.json` output:
`content.replace("{{", "{").replace("}}", "}")`. -/
def generateCMakeUserPresets (template : String) : String :=
  String.mk (pyReplace2 braceR braceR braceR (pyReplace2 braceL braceL braceL template.data))

/-- Modelled from the claim's words: the template with every doubled
brace (open or close) collapsed to a single brace, in one left-to-right
pass. -/
def collapseDoubledBracesSpec : List Char → List Char
  | [] => []
  | [x] => [x]
  | x :: y :: rest =>
    if (x == braceL && y == braceL) || (x == braceR && y == braceR) then
      x :: collapseDoubledBracesSpec rest
    else
      x :: collapseDoubledBracesSpec (y :: rest)

/-- Executable suffix test on strings (used to state "the bundle id
ends with the technical name"). -/
def strEndsWith (s suffix : String) : Bool :=
  decide (suffix.data <:+ s.data)

/-! ## Helper lemmas -/

/-- `generateBundleId` decomposed into its three segments, the
manufacturer one written as the specification words it. -/
theorem generateBundleId_eq (m p : String) :
    generateBundleId m p =
      "com." ++ manufacturerSegmentSpec m ++ "." ++ stripNonProjectId p := by
  unfold generateBundleId manufacturerSegmentSpec
  cases h : (stripNonAlnum m).data with
  | nil => simp [h]
  | cons c cs =>
    by_cases hc : isAsciiLetter c
    · simp [h, hc]
    · simp [h, hc]

/-- A letter is a project-identifier character. -/
theorem isProjectIdChar_of_letter {c : Char} (h : isAsciiLetter c = true) :
    isProjectIdChar c = true := by
  simp [isProjectIdChar, isAlnumAsciiChar, h]

/-- For names accepted by the core pattern, the project-id
sanitization keeps every character. -/
theorem stripNonProjectId_of_core {name : String}
    (h : matchesNameCore name.data = true) :
    stripNonProjectId name = name := by
  unfold stripNonProjectId
  cases hd : name.data with
  | nil => rw [hd] at h; simp [matchesNameCore] at h
  | cons c cs =>
    rw [hd] at h
    simp only [matchesNameCore, Bool.and_eq_true, List.all_eq_true] at h
    have : (c :: cs).filter isProjectIdChar = c :: cs := by
      rw [List.filter_eq_self]
      intro a ha
      rcases List.mem_cons.mp ha with rfl | ha
      · exact isProjectIdChar_of_letter h.1
      · exact h.2 a ha
    rw [this, ← hd]

/-! ## Claims -/

/-- **C1** (counterexample): the claim asserts that a manufacturer name
whose sanitized segment is *empty* gets the fallback word `"Company"`
prefixed.  The code guards the fallback with Python truthiness
(`if manufacturerId and ...`), so an empty sanitized segment is left
empty: `generateBundleId "!!!" "Plug"` is `"com..Plug"`, not the
`"com.Company.Plug"` the claim requires. -/
theorem bundle_id_empty_manufacturer_not_prefixed :
    stripNonAlnum "!!!" = "" ∧
    generateBundleId "!!!" "Plug" = "com..Plug" ∧
    generateBundleId "!!!" "Plug" ≠ "com." ++ "Company" ++ "." ++ "Plug" := by
  refine ⟨by decide, by decide, by decide⟩

/-- **C1** (amended): `generateBundleId` is a pure function returning
`"com." ++ <manufacturer segment> ++ "." ++ <sanitized technical name>`,
where sanitization strips every character outside the allowed set, and
the fallback word `"Company"` is prefixed to the manufacturer segment
exactly when the sanitized manufacturer segment is non-empty and starts
with a non-letter; an empty sanitized manufacturer segment is left
empty. -/
theorem bundle_id_derivation (m p : String) :
    generateBundleId m p =
      "com." ++ manufacturerSegmentSpec m ++ "." ++ stripNonProjectId p ∧
    (manufacturerSegmentSpec m = "Company" ++ stripNonAlnum m ↔
      ((stripNonAlnum m).data ≠ [] ∧
       ((stripNonAlnum m).data.head?.map (fun c => !isAsciiLetter c)).getD false = true)) := by
  have hne : stripNonAlnum m ≠ "Company" ++ stripNonAlnum m := by
    intro hcontra
    have hlen := congrArg String.length hcontra
    rw [String.length_append] at hlen
    have h7 : ("Company" : String).length = 7 := rfl
    rw [h7] at hlen
    omega
  refine ⟨generateBundleId_eq m p, ?_⟩
  unfold manufacturerSegmentSpec
  cases h : (stripNonAlnum m).data with
  | nil => simp [h, hne]
  | cons c cs =>
    cases hc : isAsciiLetter c with
    | false => simp [h, hc]
    | true => simp [h, hc, hne]

/-- Witness for `bundle_id_derivation`: a digit-leading manufacturer
name takes the fallback prefix. -/
theorem bundle_id_derivation_witness :
    generateBundleId "123 Sound" "Plug" =
      "com." ++ manufacturerSegmentSpec "123 Sound" ++ "." ++ stripNonProjectId "Plug" :=
  (bundle_id_derivation "123 Sound" "Plug").1

/-- **C9** (counterexample): Python's `re.match(..., name)` with a
`$`-terminated pattern also matches when a single final newline follows
the pattern, so `isValidProjectName "Ab\n"` is `true`; but the
sanitization inside `generateBundleId` strips the newline, so it is not
the identity on that accepted name and the bundle id does not end with
the name unchanged. -/
theorem project_name_newline_quirk :
    isValidProjectName "Ab\n" = true ∧
    stripNonProjectId "Ab\n" ≠ "Ab\n" ∧
    strEndsWith (generateBundleId "My Company" "Ab\n") ("." ++ "Ab\n") = false := by
  refine ⟨by decide, by decide, by decide⟩

/-- **C9** (amended): for every technical name accepted by
`isValidProjectName` that does not end in a newline (equivalently, a
letter followed only by letters, digits, underscores or hyphens), the
technical-name sanitization inside `generateBundleId` is the identity,
and the generated bundle identifier ends with `"."` followed by the
technical name unchanged. -/
theorem project_name_sanitization_identity (m name : String)
    (hv : isValidProjectName name = true)
    (hn : name.data.getLast? ≠ some '\n') :
    stripNonProjectId name = name ∧
    strEndsWith (generateBundleId m name) ("." ++ name) = true := by
  have hcore : matchesNameCore name.data = true := by
    simp only [isValidProjectName, Bool.or_eq_true] at hv
    rcases hv with hv | hv
    · exact hv
    · exfalso
      cases hl : name.data.getLast? with
      | none => rw [hl] at hv; simp at hv
      | some c =>
        rw [hl] at hv
        simp only [Bool.and_eq_true, beq_iff_eq] at hv
        exact hn (by rw [hl, hv.1])
  have hid : stripNonProjectId name = name := stripNonProjectId_of_core hcore
  refine ⟨hid, ?_⟩
  rw [generateBundleId_eq, strEndsWith, decide_eq_true_eq, hid]
  have : ("com." ++ manufacturerSegmentSpec m ++ "." ++ name).data =
      ("com." ++ manufacturerSegmentSpec m).data ++ ("." ++ name).data := by
    simp [String.data_append]
  rw [this]
  exact List.suffix_append _ _

/-- **C4**: the manufacturer-code validator accepts exactly the strings
of length 4 all of whose characters are alphabetic, and the plugin-code
validator accepts exactly the strings of length 4 all of whose
characters are alphanumeric (the per-character classes standing for
Python's `isalpha`/`isalnum`); every other string is rejected. -/
theorem code_validators_characterized
    (alphaC alnumC : Char → Bool) (code : String) :
    (isValidManufacturerCode alphaC code = true ↔
      (code.length = 4 ∧ ∀ c ∈ code.data, alphaC c = true)) ∧
    (isValidPluginCode alnumC code = true ↔
      (code.length = 4 ∧ ∀ c ∈ code.data, alnumC c = true)) := by
  have main : ∀ cls : Char → Bool,
      (code.length == 4 && pyStrAll cls code) = true ↔
        (code.length = 4 ∧ ∀ c ∈ code.data, cls c = true) := by
    intro cls
    constructor
    · intro hacc
      rw [Bool.and_eq_true] at hacc
      obtain ⟨h1, h2⟩ := hacc
      rw [pyStrAll, Bool.and_eq_true] at h2
      exact ⟨by simpa using h1, fun c hc => List.all_eq_true.mp h2.2 c hc⟩
    · rintro ⟨hlen, hall⟩
      rw [Bool.and_eq_true, pyStrAll, Bool.and_eq_true]
      refine ⟨by simpa using hlen, ?_, List.all_eq_true.mpr hall⟩
      cases hd : code.data with
      | nil =>
        exfalso
        have h4 : code.data.length = 4 := hlen
        rw [hd] at h4
        simp at h4
      | cons x xs => simp [hd]
  exact ⟨main alphaC, main alnumC⟩

/-- **C5**: category derivation is a pure function of the four flags as
stored by `configurePluginSettings`: a yes for synthesizer yields the
instrument/synth pair regardless of every other flag, otherwise a yes
for MIDI-effect yields the MIDI-processor pair, otherwise the generic
effect pair results. -/
theorem category_derivation_priority
    (bSynth _bMidiIn _bMidiOut bMidiEffect : Bool) :
    (bSynth = true →
      updateAuAndVst3Categories (boolToFlag bSynth) (boolToFlag bMidiEffect) =
        ("kAudioUnitType_MusicDevice", "Instrument|Synth")) ∧
    (bSynth = false → bMidiEffect = true →
      updateAuAndVst3Categories (boolToFlag bSynth) (boolToFlag bMidiEffect) =
        ("kAudioUnitType_MIDIProcessor", "Fx|MIDI")) ∧
    (bSynth = false → bMidiEffect = false →
      updateAuAndVst3Categories (boolToFlag bSynth) (boolToFlag bMidiEffect) =
        ("kAudioUnitType_Effect", "Fx")) := by
  cases bSynth <;> cases bMidiEffect <;>
    refine ⟨?_, ?_, ?_⟩ <;> intros <;> first | rfl | omega | simp_all

/-- Witness for `category_derivation_priority`: both synthesizer and
MIDI-effect answered yes — the synthesizer pair wins. -/
theorem category_derivation_priority_witness :
    updateAuAndVst3Categories (boolToFlag true) (boolToFlag true) =
      ("kAudioUnitType_MusicDevice", "Instrument|Synth") :=
  (category_derivation_priority true false false true).1 rfl

/-- Witness for `project_name_sanitization_identity` at the accepted
name `"MyPlug"`. -/
theorem project_name_sanitization_identity_witness :
    stripNonProjectId "MyPlug" = "MyPlug" ∧
    strEndsWith (generateBundleId "My Company" "MyPlug") ("." ++ "MyPlug") = true :=
  project_name_sanitization_identity "My Company" "MyPlug" (by decide) (by decide)

/-- **C3**: the problematic-character check flags a string iff it
contains a character with code point above 127 that is not one of the
four separators; the reported characters are, as a set, exactly the
non-ASCII non-separator characters present; and the formatter lists
the first (at most) ten distinct offending characters, appending a
count of the remainder exactly when more than ten are distinct. -/
theorem problematic_chars_check_characterized (s : String) (chars : List Char) :
    ((hasProblematicChars s).1 = true ↔
       ∃ c ∈ s.data, isNonAsciiChar c = true ∧ isPathSeparator c = false) ∧
    (∀ c, c ∈ (hasProblematicChars s).2 ↔
       (c ∈ s.data ∧ isNonAsciiChar c = true ∧ isPathSeparator c = false)) ∧
    ((chars.dedup.take 10).length ≤ 10 ∧
     (chars.dedup.take 10).Nodup ∧
     (∀ c ∈ chars.dedup.take 10, c ∈ chars) ∧
     formatProblematicCharsString chars =
       String.intercalate ", " ((chars.dedup.take 10).map
         (fun c => quoteChar.toString ++ c.toString ++ quoteChar.toString)) ++
       (if 10 < chars.dedup.length then
          " ... (and " ++ toString (chars.dedup.length - 10) ++ " more)"
        else "")) := by
  refine ⟨?_, ?_, ?_, ?_, ?_, ?_⟩
  · show decide (0 < (findProblematicCharsInPath s).length) = true ↔ _
    rw [decide_eq_true_eq, List.length_pos_iff_exists_mem]
    simp only [findProblematicCharsInPath, List.mem_filter, Bool.and_eq_true,
      Bool.not_eq_true']
    constructor
    · rintro ⟨c, hc, hsep, hna⟩
      exact ⟨c, hc, hna, hsep⟩
    · rintro ⟨c, hc, hna, hsep⟩
      exact ⟨c, hc, hsep, hna⟩
  · intro c
    show c ∈ findProblematicCharsInPath s ↔ _
    simp only [findProblematicCharsInPath, List.mem_filter, Bool.and_eq_true,
      Bool.not_eq_true']
    constructor
    · rintro ⟨hc, hsep, hna⟩
      exact ⟨hc, hna, hsep⟩
    · rintro ⟨hc, hna, hsep⟩
      exact ⟨hc, hsep, hna⟩
  · exact List.length_take_le 10 chars.dedup
  · exact List.Nodup.sublist (List.take_sublist 10 chars.dedup) (List.nodup_dedup chars)
  · intro c hc
    exact List.mem_dedup.mp (List.take_subset 10 chars.dedup hc)
  · by_cases hcond : 10 < chars.dedup.length
    · simp [formatProblematicCharsString, hcond, String.append_assoc]
    · simp [formatProblematicCharsString, hcond]

/-- Witness for `problematic_chars_check_characterized`: an accented
character triggers the violation flag. -/
theorem problematic_chars_check_characterized_witness :
    (hasProblematicChars "été").1 = true :=
  (problematic_chars_check_characterized "été" []).1.mpr
    ⟨Char.ofNat 233, by decide, by decide, by decide⟩

/-- Witness for `code_validators_characterized`: the default code
`"Myco"` is accepted. -/
theorem code_validators_characterized_witness :
    isValidManufacturerCode Char.isAlpha "Myco" = true :=
  (code_validators_characterized Char.isAlpha Char.isAlphanum "Myco").1.mpr
    ⟨by decide, by decide⟩

/-- **C8**: the yes/no prompt routine accepts exactly the
case-insensitive tokens `y`/`yes` (returning yes) and `n`/`no`
(returning no); an empty or any other answer re-issues the same prompt;
and the result is entirely independent of the displayed bracketed
default, so empty input never selects it — including when the shown
default is yes. -/
theorem yes_no_prompt_characterized (default : Bool) (i : String) (rest : List String) :
    (∀ (d2 : Bool) (inputs : List String),
       getValidBooleanInput default inputs = getValidBooleanInput d2 inputs) ∧
    ((pyLower (pyStrip i) = "y" ∨ pyLower (pyStrip i) = "yes") →
       getValidBooleanInput default (i :: rest) = some (true, rest)) ∧
    ((pyLower (pyStrip i) = "n" ∨ pyLower (pyStrip i) = "no") →
       getValidBooleanInput default (i :: rest) = some (false, rest)) ∧
    ((pyLower (pyStrip i) ≠ "y" ∧ pyLower (pyStrip i) ≠ "yes" ∧
      pyLower (pyStrip i) ≠ "n" ∧ pyLower (pyStrip i) ≠ "no") →
       getValidBooleanInput default (i :: rest) = getValidBooleanInput default rest) := by
  refine ⟨?_, ?_, ?_, ?_⟩
  · intro d2 inputs
    induction inputs with
    | nil => rfl
    | cons a l ih =>
      simp only [getValidBooleanInput]
      rw [ih]
  · intro h
    have hne : ¬((pyStrip i == "") = true) := by
      intro hh
      rw [beq_iff_eq] at hh
      rw [hh] at h
      revert h
      decide
    have hcond : (pyLower (pyStrip i) == "y" || pyLower (pyStrip i) == "yes") = true := by
      rcases h with h | h <;> simp [h]
    simp only [getValidBooleanInput]
    rw [if_neg hne, if_pos hcond]
  · intro h
    have hne : ¬((pyStrip i == "") = true) := by
      intro hh
      rw [beq_iff_eq] at hh
      rw [hh] at h
      revert h
      decide
    have hy : ¬((pyLower (pyStrip i) == "y" || pyLower (pyStrip i) == "yes") = true) := by
      rcases h with h | h <;> rw [h] <;> decide
    have hcond : (pyLower (pyStrip i) == "n" || pyLower (pyStrip i) == "no") = true := by
      rcases h with h | h <;> simp [h]
    simp only [getValidBooleanInput]
    rw [if_neg hne, if_neg hy, if_pos hcond]
  · rintro ⟨h1, h2, h3, h4⟩
    by_cases he : (pyStrip i == "") = true
    · simp only [getValidBooleanInput]
      rw [if_pos he]
    · have hy : ¬((pyLower (pyStrip i) == "y" || pyLower (pyStrip i) == "yes") = true) := by
        simp [h1, h2]
      have hn : ¬((pyLower (pyStrip i) == "n" || pyLower (pyStrip i) == "no") = true) := by
        simp [h3, h4]
      simp only [getValidBooleanInput]
      rw [if_neg he, if_neg hy, if_neg hn]

/-- Witness for `yes_no_prompt_characterized`: the token `"YES"` is
accepted case-insensitively as yes. -/
theorem yes_no_prompt_characterized_witness :
    getValidBooleanInput true ["YES"] = some (true, []) :=
  (yes_no_prompt_characterized true "YES" []).2.1 (Or.inr (by decide))

/-- A terminating format pass selects a sub-list of
`["AU", "VST3", "Standalone"]`. -/
theorem formatPass_result (inputs : List String) (sel : List String)
    (rest : List String) (h : formatPass inputs = some (sel, rest)) :
    List.Sublist sel ["AU", "VST3", "Standalone"] := by
  unfold formatPass at h
  split at h
  · cases h
  · split at h
    · cases h
    · split at h
      · cases h
      · simp only [Option.some.injEq, Prod.mk.injEq] at h
        rw [← h.1]
        split <;> split <;> split <;> decide

/-- **C6**: whenever format selection terminates it returns a
space-joined non-empty sub-list of `["AU", "VST3", "Standalone"]`; a
pass answering no to all three prompts restarts the whole step from
scratch; and a pass answering yes to exactly one format terminates with
exactly that format. -/
theorem select_plugin_formats_characterized :
    (∀ fuel inputs s rest, selectPluginFormats fuel inputs = some (s, rest) →
       ∃ sel, sel ≠ [] ∧ List.Sublist sel ["AU", "VST3", "Standalone"] ∧
         s = String.intercalate " " sel) ∧
    (∀ (fuel : Nat) (rest : List String),
       selectPluginFormats (fuel + 1) ("n" :: "n" :: "n" :: rest) =
         selectPluginFormats fuel rest) ∧
    (∀ (fuel : Nat) (rest : List String),
       selectPluginFormats (fuel + 1) ("y" :: "n" :: "n" :: rest) = some ("AU", rest) ∧
       selectPluginFormats (fuel + 1) ("n" :: "y" :: "n" :: rest) = some ("VST3", rest) ∧
       selectPluginFormats (fuel + 1) ("n" :: "n" :: "y" :: rest) = some ("Standalone", rest)) := by
  refine ⟨?_, ?_, ?_⟩
  · intro fuel
    induction fuel with
    | zero =>
      intro inputs s rest h
      simp [selectPluginFormats] at h
    | succ n ih =>
      intro inputs s rest h
      unfold selectPluginFormats at h
      split at h
      · cases h
      · rename_i selected r3 hp
        split at h
        · exact ih r3 s rest h
        · rename_i hempty
          simp only [Option.some.injEq, Prod.mk.injEq] at h
          refine ⟨selected, ?_, formatPass_result inputs selected r3 hp, h.1.symm⟩
          intro hnil
          rw [hnil] at hempty
          exact hempty rfl
  · intro fuel rest
    rfl
  · intro fuel rest
    exact ⟨rfl, rfl, rfl⟩

/-- Witness for `select_plugin_formats_characterized`: the run
answering yes only to AU yields a non-empty sub-list selection. -/
theorem select_plugin_formats_characterized_witness :
    ∃ sel, sel ≠ [] ∧ List.Sublist sel ["AU", "VST3", "Standalone"] ∧
      "AU" = String.intercalate " " sel :=
  select_plugin_formats_characterized.1 1 ["y", "n", "n"] "AU" [] (by rfl)

/-- A two-character replacement leaves a non-matching head in place. -/
theorem pyReplace2_cons_of_ne (a b c x : Char) (l : List Char)
    (hx : (x == a) = false) :
    pyReplace2 a b c (x :: l) = x :: pyReplace2 a b c l := by
  cases l with
  | nil => rfl
  | cons y rest => simp [pyReplace2, hx]

/-- Replacing a doubled character by itself preserves the head
character of the input. -/
theorem pyReplace2_head (a x : Char) (l : List Char) :
    ∃ t, pyReplace2 a a a (x :: l) = x :: t := by
  cases l with
  | nil => exact ⟨[], rfl⟩
  | cons y rest =>
    by_cases hxy : (x == a && y == a) = true
    · rw [Bool.and_eq_true] at hxy
      have hx : x = a := beq_iff_eq.mp hxy.1
      refine ⟨pyReplace2 a a a rest, ?_⟩
      rw [hx]
      simp [pyReplace2, hxy.2]
    · have hxy' : (x == a && y == a) = false := by
        cases hb : (x == a && y == a)
        · rfl
        · exact absurd hb hxy
      exact ⟨pyReplace2 a a a (y :: rest), by simp [pyReplace2, hxy']⟩

/-- The script's two sequential `str.replace` passes (first collapsing
doubled opening braces, then doubled closing braces) compute exactly
the specification's single collapse of every doubled brace. -/
theorem collapse_sequential_eq_spec (t : List Char) :
    pyReplace2 braceR braceR braceR (pyReplace2 braceL braceL braceL t) =
      collapseDoubledBracesSpec t := by
  induction t using collapseDoubledBracesSpec.induct with
  | case1 => rfl
  | case2 x => rfl
  | case3 x y rest hcond ih =>
    rw [Bool.or_eq_true] at hcond
    rcases hcond with hL | hR
    · rw [Bool.and_eq_true] at hL
      have hx : x = braceL := beq_iff_eq.mp hL.1
      have hy : y = braceL := beq_iff_eq.mp hL.2
      subst hx
      subst hy
      have hinner : pyReplace2 braceL braceL braceL (braceL :: braceL :: rest) =
          braceL :: pyReplace2 braceL braceL braceL rest := by
        simp [pyReplace2]
      rw [hinner,
        pyReplace2_cons_of_ne braceR braceR braceR braceL _ (by decide), ih]
      simp [collapseDoubledBracesSpec]
    · rw [Bool.and_eq_true] at hR
      have hx : x = braceR := beq_iff_eq.mp hR.1
      have hy : y = braceR := beq_iff_eq.mp hR.2
      subst hx
      subst hy
      rw [pyReplace2_cons_of_ne braceL braceL braceL braceR _ (by decide),
        pyReplace2_cons_of_ne braceL braceL braceL braceR _ (by decide)]
      have houter : pyReplace2 braceR braceR braceR
          (braceR :: braceR :: pyReplace2 braceL braceL braceL rest) =
          braceR :: pyReplace2 braceR braceR braceR (pyReplace2 braceL braceL braceL rest) := by
        simp [pyReplace2]
      rw [houter, ih]
      simp [collapseDoubledBracesSpec]
  | case4 x y rest hcond ih =>
    have h1 : (x == braceL && y == braceL) = false := by
      cases hb : (x == braceL && y == braceL)
      · rfl
      · exact absurd (by rw [hb]; simp) hcond
    have h2 : (x == braceR && y == braceR) = false := by
      cases hb : (x == braceR && y == braceR)
      · rfl
      · exact absurd (by rw [hb]; simp) hcond
    have hinner : pyReplace2 braceL braceL braceL (x :: y :: rest) =
        x :: pyReplace2 braceL braceL braceL (y :: rest) := by
      simp [pyReplace2, h1]
    obtain ⟨tl, htl⟩ := pyReplace2_head braceL y rest
    rw [hinner, htl]
    have houter : pyReplace2 braceR braceR braceR (x :: y :: tl) =
        x :: pyReplace2 braceR braceR braceR (y :: tl) := by
      simp [pyReplace2, h2]
    rw [houter, ← htl, ih]
    simp only [collapseDoubledBracesSpec]
    rw [if_neg hcond]

/-- **C10**: the `.cursorrules` and `.gitignore` outputs are written
byte-identical to their template contents; the `CMakeUserPresets.json`
output equals its template with every doubled brace collapsed to a
single brace; none of the three passes through the placeholder-field
substitution (none of these output functions even receives the
descriptor). -/
theorem template_passthrough_outputs (t : String) :
    generateCursorRules t = t ∧ generateGitIgnore t = t ∧
    (generateCMakeUserPresets t).data = collapseDoubledBracesSpec t.data :=
  ⟨rfl, rfl, collapse_sequential_eq_spec t.data⟩

/-- Witness for `template_passthrough_outputs` on a doubled-brace
template. -/
theorem template_passthrough_outputs_witness :
    (generateCMakeUserPresets (String.mk [braceL, braceL, braceR, braceR])).data =
      collapseDoubledBracesSpec (String.mk [braceL, braceL, braceR, braceR]).data :=
  (template_passthrough_outputs (String.mk [braceL, braceL, braceR, braceR])).2.2

/-- Name entry emits only overwrite-confirmation events (never a
filesystem mutation). -/
theorem inputProjectName_events (env : Env) :
    ∀ (fuel : Nat) (inputs : List String) (tn dn : String) (evs : List Ev)
      (rest : List String),
      inputProjectName env fuel inputs = some (tn, dn, evs, rest) →
      evs.all Ev.isConfirm = true := by
  intro fuel
  induction fuel with
  | zero =>
    intro inputs tn dn evs rest h
    simp [inputProjectName] at h
  | succ n ih =>
    intro inputs tn dn evs rest h
    cases inputs with
    | nil => simp [inputProjectName] at h
    | cons i rest0 =>
      simp only [inputProjectName] at h
      split at h
      · exact ih rest0 tn dn evs rest h
      · split at h
        · split at h
          · cases h
          · exact ih _ tn dn evs rest h
          · split at h
            · cases h
            · simp only [Option.some.injEq, Prod.mk.injEq] at h
              obtain ⟨-, -, hevs, -⟩ := h
              rw [← hevs]
              rfl
        · split at h
          · cases h
          · simp only [Option.some.injEq, Prod.mk.injEq] at h
            obtain ⟨-, -, hevs, -⟩ := h
            rw [← hevs]
            rfl

/-- The whole prompting phase emits only overwrite-confirmation
events. -/
theorem collectProjectInfo_events (env : Env) (fuel : Nat) (inputs : List String)
    (st : GenState) (evs : List Ev) (rest : List String)
    (h : collectProjectInfo env fuel inputs = some (st, evs, rest)) :
    evs.all Ev.isConfirm = true := by
  unfold collectProjectInfo at h
  split at h
  · cases h
  · rename_i tn dn evs0 r1 hipn
    split at h
    · cases h
    · split at h
      · cases h
      · split at h
        · cases h
        · split at h
          · cases h
          · split at h
            · cases h
            · split at h
              · cases h
              · split at h
                · cases h
                · simp only [Option.some.injEq, Prod.mk.injEq] at h
                  obtain ⟨-, hevs, -⟩ := h
                  rw [← hevs]
                  exact inputProjectName_events env fuel inputs tn dn evs0 _ hipn

/-- **C7**: if the user declines the final `Create project?`
confirmation after the summary, the run ends with exit status 0 and the
event trace holds no filesystem mutation at all — no directory is
created or removed and no file is written; the generation stage is
never reached. -/
theorem declining_final_confirmation_no_fs_events (env : Env) (fuel : Nat)
    (inputs : List String) (h : summaryAnswer env fuel inputs = some false) :
    ∃ evs, generate env fuel inputs = some (0, evs) ∧
      evs.all Ev.isConfirm = true := by
  unfold summaryAnswer at h
  split at h
  · cases h
  · rename_i st evs0 rest hci
    cases hg : getValidBooleanInput true rest with
    | none => rw [hg] at h; cases h
    | some p =>
      rw [hg] at h
      obtain ⟨ok, rest2⟩ := p
      simp only [Option.map_some', Option.some.injEq] at h
      subst h
      refine ⟨evs0, ?_, collectProjectInfo_events env fuel inputs st evs0 rest hci⟩
      simp only [generate, hci, hg]
      simp

/-- Witness for `declining_final_confirmation_no_fs_events`: a full
concrete run answering no at the summary. -/
theorem declining_final_confirmation_no_fs_events_witness :
    ∃ evs,
      generate
        ⟨fun _ => false, "/home/user/Desktop", "My Company", "Myco", "Mypl", true,
          Char.isAlpha, Char.isAlphanum⟩ 5
        ["MyPlug", "", "", "", "", "", "n", "n", "n", "n", "n", "n", "y", "", "n"] =
        some (0, evs) ∧
      evs.all Ev.isConfirm = true :=
  declining_final_confirmation_no_fs_events _ 5 _ (by decide)

/-- The environment of the C2 failing run: the configured default
destination is `/home/user/Desktop`; the directory `/tmp/Foo` (and
nothing else) already exists on disk. -/
def envExistingAtChosenDest : Env :=
  ⟨fun p => p == "/tmp/Foo", "/home/user/Desktop", "My Company", "Myco", "Mypl", true,
    Char.isAlpha, Char.isAlphanum⟩

/-- The interactive answers of the C2 failing run: technical name
`Foo`, every default accepted, no to all four behaviour flags,
Standalone as the only format, destination `/tmp` (not the default),
and yes at the final summary confirmation. -/
def unconfirmedDeleteInputs : List String :=
  ["Foo", "", "", "", "", "", "n", "n", "n", "n", "n", "n", "y", "/tmp", "y"]

/-- **C2** (the code evaluated at the failing input): the existence
check during name entry consults only the *default* destination, but
generation deletes at the *chosen* destination.  In this run the
pre-existing directory `/tmp/Foo` is removed by the generation stage
although no overwrite confirmation was ever asked or given for any
directory. -/
theorem unconfirmed_delete_trace :
    envExistingAtChosenDest.fs "/tmp/Foo" = true ∧
    ∃ evs, generate envExistingAtChosenDest 5 unconfirmedDeleteInputs = some (0, evs) ∧
      Ev.rmtree "/tmp/Foo" ∈ evs ∧
      evs.all (fun e => !Ev.isConfirm e) = true := by
  refine ⟨rfl,
    [Ev.rmtree "/tmp/Foo",
     Ev.mkdir "/tmp/Foo/Source", Ev.mkdir "/tmp/Foo/.vscode",
     Ev.write "/tmp/Foo/CMakeLists.txt",
     Ev.write "/tmp/Foo/Source/PluginProcessor.h",
     Ev.write "/tmp/Foo/Source/PluginProcessor.cpp",
     Ev.write "/tmp/Foo/Source/PluginEditor.h",
     Ev.write "/tmp/Foo/Source/PluginEditor.cpp",
     Ev.write "/tmp/Foo/Source/PluginFactory.cpp",
     Ev.write "/tmp/Foo/.vscode/settings.json",
     Ev.write "/tmp/Foo/.vscode/tasks.json",
     Ev.write "/tmp/Foo/.vscode/launch.json",
     Ev.write "/tmp/Foo/.cursorrules",
     Ev.write "/tmp/Foo/.gitignore",
     Ev.write "/tmp/Foo/CMakeUserPresets.json",
     Ev.copy "/tmp/Foo/configure-platform.py",
     Ev.write "/tmp/Foo/README.md"],
    by decide, by decide, by decide⟩

end JuceGen
